import Mathlib

/-!
Shallow embedding of `cmd/kubectl-image/pull.go` from the shipwright-io/image
repository: the `imagepull` cobra command (its `RunE` closure) and the
`pullImage` helper.  External collaborators (kubeconfig loading, gRPC dial,
the streaming `Pull` call, temp dir/file creation, `pb.Receive`,
`alltransports.ParseImageName`, `localStorageRef`, `NewPolicyContext`,
`imgcopy.Image`) are modelled as oracles: an environment record fixes the
success/failure outcome of each call, and the embedded function replays the
source's control flow over those outcomes, emitting an event trace that
records every externally visible action in program order.  Go `defer`
statements are modelled by appending the deferred action's event at every
return point established after the `defer` executes, in last-in-first-out
order, exactly as Go runs them.
-/

namespace KubectlImage

/-- Trust-policy requirement kinds of the `containers/image` `signature`
package that are relevant here.  The source constructs only
`NewPRInsecureAcceptAnything()`; the other constructors exist in the library
(`NewPRReject`, `NewPRSignedBy`) and are carried so that "no other
requirement is ever attached" is a non-trivial statement. -/
inductive PolicyRequirement where
  | insecureAcceptAnything
  | reject
  | signedBy
deriving DecidableEq, Repr

/-- Embeds `signature.PolicyRequirements`, a slice of requirements. -/
def PolicyRequirements := List PolicyRequirement
deriving DecidableEq, Repr

/-- Embeds `signature.Policy`: a default requirement list plus
transport-specific scopes.  The source (`pull.go` lines 87-91) sets only the
`Default` field; `Transports` is left at its zero value (empty). -/
structure Policy where
  Default : PolicyRequirements
  Transports : List (String × PolicyRequirements) := []
deriving DecidableEq, Repr

/-- The policy value `pol` built at `pull.go` lines 87-91:
`&signature.Policy{Default: signature.PolicyRequirements{
signature.NewPRInsecureAcceptAnything()}}`. -/
def pol : Policy :=
  { Default := [PolicyRequirement.insecureAcceptAnything] }

/-- Embeds `types.ImageReference` as far as this program observes it: the
transport name and the path, as produced by
`alltransports.ParseImageName("docker-archive:" + path)`. -/
structure ImageRef where
  transport : String
  path : String
deriving DecidableEq, Repr

/-- Externally visible actions of the command, in program order.  `dial`,
`streamOpen`, `receive` and the parse/build/commit events record the
attempt (they are emitted whether or not the call succeeds);
`tempDirCreate` and `tempFileCreate` record a successful acquisition of the
resource (a failed acquisition creates nothing to track).  `connClose`
stands for `conn.Close()` on the gRPC client connection: the vocabulary has
it so that its absence from every trace is a statable fact (the source never
calls it). -/
inductive Event where
  | flagRead
  | configLoad
  | parseIndex
  | dial (insecureSkipVerify : Bool)
  | connClose
  | streamOpen
  | tempDirCreate
  | tempFileCreate
  | sinkCreate
  | receive (bytes : Nat)
  | release
  | sinkWait
  | parseRef (s : String)
  | localStorageRef
  | policyContextNew (p : Policy)
  | commit (p : Policy)
deriving DecidableEq, Repr

/-- Error returns of `pullImage`, one per `return nil, nil, fmt.Errorf(...)`
site (`pull.go` lines 122, 141, 146, 151, 159, 166). -/
inductive PullErr where
  | connect
  | pull
  | tempDir
  | tempFile
  | receive
  | parseRef
deriving DecidableEq, Repr

/-- Error returns of the command's `RunE` closure, one per `return` site that
can yield a non-nil error (`pull.go` lines 49, 54, 59, 63, 69, 78, 84, 94,
101). -/
inductive RunErr where
  | usage
  | flagGet
  | kubeconfig
  | emptyToken
  | indexFor
  | pull (e : PullErr)
  | localStorageRef
  | policyContext
  | commit
deriving DecidableEq, Repr

/-- Oracle outcomes for the external calls made by `pullImage`.
`tempFilePath` is the name of the temp file (`fp.Name()`), `receiveBytes` the
number of bytes `pb.Receive` wrote before returning (success or failure). -/
structure PullEnv where
  dialOk : Bool
  streamOk : Bool
  tempDirOk : Bool
  tempFileOk : Bool
  tempFilePath : String
  receiveOk : Bool
  receiveBytes : Nat
  parseOk : Bool
deriving DecidableEq, Repr

/-- The Go return tuple of `pullImage`:
`(types.ImageReference, func(), error)`.  `cleanupReturned` is true exactly
when the returned cleanup function is non-nil. -/
structure PullOut where
  ref : Option ImageRef
  cleanupReturned : Bool
  err : Option PullErr
deriving DecidableEq, Repr

/-- Embeds `pullImage` (`pull.go` lines 109-170).  Control flow, in source
order: `grpc.DialContext` with `tls.Config{InsecureSkipVerify: insecure}`;
`client.Pull` (stream open); `createHomeTempDir`; `fsh.TempFile`;
`progbar.New` followed by `defer pbar.Wait()`; `pb.Receive` into the temp
file, calling `cleanup()` before returning on error; building the reference
string `"docker-archive:" + fp.Name()` and parsing it, again calling
`cleanup()` before returning on error; on success the cleanup function is
returned to the caller.  The deferred `pbar.Wait()` event is appended at
every return point after the sink's creation. -/
def pullImage (env : PullEnv) (insecure : Bool) : List Event × PullOut :=
  let ev0 := [Event.dial insecure]
  if !env.dialOk then (ev0, ⟨none, false, some PullErr.connect⟩)
  else
    let ev1 := ev0 ++ [Event.streamOpen]
    if !env.streamOk then (ev1, ⟨none, false, some PullErr.pull⟩)
    else
      if !env.tempDirOk then (ev1, ⟨none, false, some PullErr.tempDir⟩)
      else
        let ev2 := ev1 ++ [Event.tempDirCreate]
        if !env.tempFileOk then (ev2, ⟨none, false, some PullErr.tempFile⟩)
        else
          let ev3 := ev2 ++ [Event.tempFileCreate]
          let ev4 := ev3 ++ [Event.sinkCreate]
          if !env.receiveOk then
            (ev4 ++ [Event.receive env.receiveBytes, Event.release,
                     Event.sinkWait],
             ⟨none, false, some PullErr.receive⟩)
          else
            let s := "docker-archive:" ++ env.tempFilePath
            let ev5 := ev4 ++ [Event.receive env.receiveBytes,
                               Event.parseRef s]
            if !env.parseOk then
              (ev5 ++ [Event.release, Event.sinkWait],
               ⟨none, false, some PullErr.parseRef⟩)
            else
              (ev5 ++ [Event.sinkWait],
               ⟨some ⟨"docker-archive", env.tempFilePath⟩, true, none⟩)

/-- The default of the `insecure` flag, registered in `init`
(`pull.go` line 39): `imagepull.Flags().Bool("insecure", false, ...)`. -/
def insecureDefault : Bool := false

/-- Oracle outcomes for the external calls made by the `RunE` closure.
`insecureSet` is the flag value if the user set `--insecure`, `none`
otherwise (the registered default then applies); `token` is the kubeconfig's
resolved `BearerToken`. -/
structure RunEnv where
  argsLen : Nat
  flagOk : Bool
  insecureSet : Option Bool
  configOk : Bool
  token : String
  indexOk : Bool
  pullEnv : PullEnv
  localRefOk : Bool
  policyCtxOk : Bool
  commitOk : Bool
deriving DecidableEq, Repr

/-- Embeds the `imagepull` command's `RunE` closure (`pull.go` lines 47-102).
Control flow, in source order: reject any argument count other than one;
read the `insecure` flag; load the kubeconfig; reject an empty
`BearerToken`; parse the coordinate (`indexFor`); call `pullImage` and on
success `defer cleanup()`; build the destination reference
(`localStorageRef`); build the policy context from `pol`; copy the image
(`imgcopy.Image`).  The deferred `cleanup()` event is appended at every
return point after the `defer`. -/
def RunE (env : RunEnv) : List Event × Option RunErr :=
  if env.argsLen ≠ 1 then ([], some RunErr.usage)
  else
    let ev1 := [Event.flagRead]
    if !env.flagOk then (ev1, some RunErr.flagGet)
    else
      let insecure := env.insecureSet.getD insecureDefault
      let ev2 := ev1 ++ [Event.configLoad]
      if !env.configOk then (ev2, some RunErr.kubeconfig)
      else if env.token = "" then (ev2, some RunErr.emptyToken)
      else
        let ev3 := ev2 ++ [Event.parseIndex]
        if !env.indexOk then (ev3, some RunErr.indexFor)
        else
          let pres := pullImage env.pullEnv insecure
          let ev4 := ev3 ++ pres.1
          match pres.2.err with
          | some e => (ev4, some (RunErr.pull e))
          | none =>
            let deferred :=
              if pres.2.cleanupReturned then [Event.release] else []
            let ev5 := ev4 ++ [Event.localStorageRef]
            if !env.localRefOk then
              (ev5 ++ deferred, some RunErr.localStorageRef)
            else
              let ev6 := ev5 ++ [Event.policyContextNew pol]
              if !env.policyCtxOk then
                (ev6 ++ deferred, some RunErr.policyContext)
              else
                let ev7 := ev6 ++ [Event.commit pol]
                if !env.commitOk then (ev7 ++ deferred, some RunErr.commit)
                else (ev7 ++ deferred, none)

end KubectlImage

namespace KubectlImage

set_option maxHeartbeats 4000000 in
/-- Facts about the full command trace, proved once by case analysis over
every branch of `RunE` and `pullImage`: the temp file, once acquired, is
released exactly once on every exit path; `conn.Close()` never occurs; the
TLS `InsecureSkipVerify` value dialed with is always the resolved flag
value; and every policy-context construction and commit uses `pol`. -/
lemma RunE_facts (env : RunEnv) :
    (Event.tempFileCreate ∈ (RunE env).1 →
      (RunE env).1.count Event.release = 1) ∧
    (Event.tempFileCreate ∈ (RunE env).1 →
      Event.release ∈ (RunE env).1) ∧
    Event.connClose ∉ (RunE env).1 ∧
    (∀ b, Event.dial b ∈ (RunE env).1 →
      b = env.insecureSet.getD insecureDefault) ∧
    (∀ p, Event.commit p ∈ (RunE env).1 → p = pol) ∧
    (∀ p, Event.policyContextNew p ∈ (RunE env).1 → p = pol) := by
  obtain ⟨argsLen, flagOk, insecureSet, configOk, token, indexOk, penv,
    lr, pc, co⟩ := env
  by_cases h1 : argsLen = 1
  · subst h1
    cases flagOk
    · simp [RunE]
    · by_cases htok : token = ""
      · cases configOk <;> simp [RunE, htok]
      · cases configOk
        · simp [RunE]
        · cases indexOk
          · simp [RunE, htok]
          · obtain ⟨d, s, td, tf, p, r, b, pa⟩ := penv
            cases d <;> cases s <;> cases td <;> cases tf <;> cases r <;>
              cases pa <;> cases lr <;> cases pc <;> cases co <;>
              simp [RunE, pullImage, htok, List.count_cons, List.count_nil,
                List.count_append]
  · simp [RunE, h1]

/-- Facts about a single `pullImage` call, proved by case analysis over its
branches: every error return carries a nil reference and a nil cleanup
function; a success returns a non-nil cleanup function; a receive or
reference-parse error releases the temp file inside `pullImage`; and once
the progress sink exists, the trace ends with the deferred sink wait. -/
lemma pullImage_facts (env : PullEnv) (i : Bool) :
    (((pullImage env i).2.err).isSome →
      (pullImage env i).2.ref = none ∧
      (pullImage env i).2.cleanupReturned = false) ∧
    ((pullImage env i).2.err = none →
      (pullImage env i).2.cleanupReturned = true) ∧
    (((pullImage env i).2.err = some PullErr.receive ∨
      (pullImage env i).2.err = some PullErr.parseRef) →
      Event.release ∈ (pullImage env i).1) ∧
    (Event.sinkCreate ∈ (pullImage env i).1 →
      (pullImage env i).1.getLast? = some Event.sinkWait) := by
  obtain ⟨d, s, td, tf, p, r, b, pa⟩ := env
  cases d <;> cases s <;> cases td <;> cases tf <;> cases r <;> cases pa <;>
    simp [pullImage]

end KubectlImage

namespace KubectlImage

/-- A sample environment in which every external call succeeds: one argument,
`--insecure=true` set, non-empty token, and a fully successful transfer. -/
def runAllOk : RunEnv :=
  ⟨1, true, some true, true, "tok", true,
    ⟨true, true, true, true, "/tmp/image.tar", true, 4, true⟩,
    true, true, true⟩

/-- A sample `pullImage` environment in which every external call succeeds. -/
def pullAllOk : PullEnv :=
  ⟨true, true, true, true, "/tmp/image.tar", true, 4, true⟩

/-- C1: whenever the temp file is successfully acquired (its creation event
is in the command trace), exactly one release of it occurs over the whole
invocation, on every exit path; moreover `pullImage` itself releases on a
receive or reference-parse error, and on success it returns a non-nil
release function to the caller (which defers it). -/
theorem tempfile_release_exactly_once_on_all_paths (env : RunEnv)
    (penv : PullEnv) (i : Bool)
    (h : Event.tempFileCreate ∈ (RunE env).1) :
    (RunE env).1.count Event.release = 1 ∧
    (((pullImage penv i).2.err = some PullErr.receive ∨
      (pullImage penv i).2.err = some PullErr.parseRef) →
      Event.release ∈ (pullImage penv i).1) ∧
    ((pullImage penv i).2.err = none →
      (pullImage penv i).2.cleanupReturned = true) :=
  ⟨(RunE_facts env).1 h,
   fun hp => (pullImage_facts penv i).2.2.1 hp,
   fun hp => (pullImage_facts penv i).2.1 hp⟩

/-- Witness for C1 at a fully successful run and a receive-failing pull. -/
theorem tempfile_release_exactly_once_on_all_paths_witness :
    (RunE runAllOk).1.count Event.release = 1 ∧
    (((pullImage ⟨true, true, true, true, "/tmp/a.tar", false, 9, true⟩
        false).2.err = some PullErr.receive ∨
      (pullImage ⟨true, true, true, true, "/tmp/a.tar", false, 9, true⟩
        false).2.err = some PullErr.parseRef) →
      Event.release ∈
        (pullImage ⟨true, true, true, true, "/tmp/a.tar", false, 9, true⟩
          false).1) ∧
    ((pullImage ⟨true, true, true, true, "/tmp/a.tar", false, 9, true⟩
        false).2.err = none →
      (pullImage ⟨true, true, true, true, "/tmp/a.tar", false, 9, true⟩
        false).2.cleanupReturned = true) :=
  tempfile_release_exactly_once_on_all_paths runAllOk
    ⟨true, true, true, true, "/tmp/a.tar", false, 9, true⟩ false (by decide)

end KubectlImage

namespace KubectlImage

/-- C2: if the stream receive step fails after the temp file was created
(whatever the number of bytes written, `env.receiveBytes` is universally
quantified), then `pullImage` itself releases the temp file before
returning, returns a receive error with a nil reference, and the
reference-parsing step is never reached (no parse event ever occurs). -/
theorem receive_error_release_and_no_reference (env : PullEnv) (i : Bool)
    (hd : env.dialOk = true) (hs : env.streamOk = true)
    (htd : env.tempDirOk = true) (htf : env.tempFileOk = true)
    (hr : env.receiveOk = false) :
    Event.release ∈ (pullImage env i).1 ∧
    (pullImage env i).2.err = some PullErr.receive ∧
    (pullImage env i).2.ref = none ∧
    ∀ s, Event.parseRef s ∉ (pullImage env i).1 := by
  simp [pullImage, hd, hs, htd, htf, hr]

/-- Witness for C2 at a pull whose receive fails after 9 bytes. -/
theorem receive_error_release_and_no_reference_witness :
    Event.release ∈
      (pullImage ⟨true, true, true, true, "/tmp/b.tar", false, 9, true⟩
        true).1 ∧
    (pullImage ⟨true, true, true, true, "/tmp/b.tar", false, 9, true⟩
      true).2.err = some PullErr.receive ∧
    (pullImage ⟨true, true, true, true, "/tmp/b.tar", false, 9, true⟩
      true).2.ref = none ∧
    ∀ s, Event.parseRef s ∉
      (pullImage ⟨true, true, true, true, "/tmp/b.tar", false, 9, true⟩
        true).1 :=
  receive_error_release_and_no_reference
    ⟨true, true, true, true, "/tmp/b.tar", false, 9, true⟩ true
    rfl rfl rfl rfl rfl

/-- C3: with one argument, a readable flag and a loadable kubeconfig, an
empty resolved bearer token makes the command return the credential error
with nothing but the flag read and the config load in the trace: no gRPC
dial is attempted, no stream is opened, and `pullImage` is never invoked. -/
theorem empty_token_credential_error_before_network (env : RunEnv)
    (h1 : env.argsLen = 1) (h2 : env.flagOk = true)
    (h3 : env.configOk = true) (h4 : env.token = "") :
    (RunE env).2 = some RunErr.emptyToken ∧
    (RunE env).1 = [Event.flagRead, Event.configLoad] ∧
    (∀ b, Event.dial b ∉ (RunE env).1) ∧
    Event.streamOpen ∉ (RunE env).1 := by
  simp [RunE, h1, h2, h3, h4]

/-- Witness for C3 at a concrete empty-token environment. -/
theorem empty_token_credential_error_before_network_witness :
    (RunE ⟨1, true, none, true, "", true, pullAllOk, true, true,
      true⟩).2 = some RunErr.emptyToken ∧
    (RunE ⟨1, true, none, true, "", true, pullAllOk, true, true,
      true⟩).1 = [Event.flagRead, Event.configLoad] ∧
    (∀ b, Event.dial b ∉
      (RunE ⟨1, true, none, true, "", true, pullAllOk, true, true,
        true⟩).1) ∧
    Event.streamOpen ∉
      (RunE ⟨1, true, none, true, "", true, pullAllOk, true, true,
        true⟩).1 :=
  empty_token_credential_error_before_network
    ⟨1, true, none, true, "", true, pullAllOk, true, true, true⟩
    rfl rfl rfl rfl

/-- C4 counterexample: on a fully successful pull the command succeeds, a
gRPC channel was dialed, yet no `conn.Close()` ever occurs — the source
never closes the client connection, so the session's channel is not
destroyed by the time the call returns, refuting the claim as stated. -/
theorem transfer_session_destroyed_counterexample :
    (RunE runAllOk).2 = none ∧
    Event.dial true ∈ (RunE runAllOk).1 ∧
    Event.connClose ∉ (RunE runAllOk).1 := by decide

/-- C4 (amended): on every exit path of the command, an acquired temp file
is released by the time the command returns, but the gRPC channel opened by
`pullImage` is never explicitly closed. -/
theorem tempfile_released_but_channel_never_closed (env : RunEnv)
    (h : Event.tempFileCreate ∈ (RunE env).1) :
    Event.release ∈ (RunE env).1 ∧
    Event.connClose ∉ (RunE env).1 :=
  ⟨(RunE_facts env).2.1 h, (RunE_facts env).2.2.1⟩

/-- Witness for the amended C4 at a fully successful run. -/
theorem tempfile_released_but_channel_never_closed_witness :
    Event.release ∈ (RunE runAllOk).1 ∧
    Event.connClose ∉ (RunE runAllOk).1 :=
  tempfile_released_but_channel_never_closed runAllOk (by decide)

/-- C5: once the progress sink has been created inside `pullImage`, the
deferred sink wait is the very last event of `pullImage`'s trace on every
exit path established after the sink's creation — `pullImage` never returns
before waiting for the sink to drain, on success and on failure alike. -/
theorem progress_sink_drained_before_return (env : PullEnv) (i : Bool)
    (h : Event.sinkCreate ∈ (pullImage env i).1) :
    (pullImage env i).1.getLast? = some Event.sinkWait :=
  (pullImage_facts env i).2.2.2 h

/-- Witness for C5 at a pull whose reference parse fails. -/
theorem progress_sink_drained_before_return_witness :
    (pullImage ⟨true, true, true, true, "/tmp/c.tar", true, 7, false⟩
      false).1.getLast? = some Event.sinkWait :=
  progress_sink_drained_before_return
    ⟨true, true, true, true, "/tmp/c.tar", true, 7, false⟩ false (by decide)

/-- C6: a reference parse occurs only when the receive completed without
error, and always on the string built by the fixed convention
`"docker-archive:" ++ path`; a successful `pullImage` returns the
`docker-archive` reference to the temp file; and a parse failure releases
the temp file and returns a parse error. -/
theorem archive_reference_fixed_convention (env : PullEnv) (i : Bool) :
    (∀ s, Event.parseRef s ∈ (pullImage env i).1 →
      env.receiveOk = true ∧
      Event.receive env.receiveBytes ∈ (pullImage env i).1 ∧
      s = "docker-archive:" ++ env.tempFilePath) ∧
    ((pullImage env i).2.err = none →
      (pullImage env i).2.ref = some ⟨"docker-archive", env.tempFilePath⟩) ∧
    (env.parseOk = false →
      ∀ s, Event.parseRef s ∈ (pullImage env i).1 →
        Event.release ∈ (pullImage env i).1 ∧
        (pullImage env i).2.err = some PullErr.parseRef) := by
  obtain ⟨d, st, td, tf, p, r, b, pa⟩ := env
  cases d <;> cases st <;> cases td <;> cases tf <;> cases r <;> cases pa <;>
    simp [pullImage]

/-- Witness for C6 at a fully successful pull. -/
theorem archive_reference_fixed_convention_witness :
    (∀ s, Event.parseRef s ∈ (pullImage pullAllOk false).1 →
      pullAllOk.receiveOk = true ∧
      Event.receive pullAllOk.receiveBytes ∈ (pullImage pullAllOk false).1 ∧
      s = "docker-archive:" ++ pullAllOk.tempFilePath) ∧
    ((pullImage pullAllOk false).2.err = none →
      (pullImage pullAllOk false).2.ref =
        some ⟨"docker-archive", pullAllOk.tempFilePath⟩) ∧
    (pullAllOk.parseOk = false →
      ∀ s, Event.parseRef s ∈ (pullImage pullAllOk false).1 →
        Event.release ∈ (pullImage pullAllOk false).1 ∧
        (pullImage pullAllOk false).2.err = some PullErr.parseRef) :=
  archive_reference_fixed_convention pullAllOk false

/-- C7: the `insecure` flag's registered default is false, and whenever a
dial occurs its TLS `InsecureSkipVerify` value is exactly the resolved flag
value (the set value if the user set the flag, otherwise the default). -/
theorem insecure_flag_default_false_and_unchanged (env : RunEnv) (b : Bool)
    (h : Event.dial b ∈ (RunE env).1) :
    insecureDefault = false ∧
    b = env.insecureSet.getD insecureDefault :=
  ⟨rfl, (RunE_facts env).2.2.2.1 b h⟩

/-- Witness for C7 at a run with `--insecure=true` set. -/
theorem insecure_flag_default_false_and_unchanged_witness :
    insecureDefault = false ∧
    true = runAllOk.insecureSet.getD insecureDefault :=
  insecure_flag_default_false_and_unchanged runAllOk true (by decide)

/-- C8: for any argument count other than one the command fails with the
usage error and an empty trace: no flag read, no kubeconfig load, no network
or filesystem action of any kind. -/
theorem arity_usage_error_before_any_action (env : RunEnv)
    (h : env.argsLen ≠ 1) :
    RunE env = ([], some RunErr.usage) := by
  simp [RunE, h]

/-- Witness for C8 at a two-argument invocation. -/
theorem arity_usage_error_before_any_action_witness :
    RunE ⟨2, true, none, true, "tok", true, pullAllOk, true, true, true⟩ =
      ([], some RunErr.usage) :=
  arity_usage_error_before_any_action
    ⟨2, true, none, true, "tok", true, pullAllOk, true, true, true⟩
    (by decide)

/-- C9: every policy context constructed and every commit performed uses
exactly the named policy value `pol`, whose default is the single
insecure-accept-anything requirement with no transport-specific scope. -/
theorem commit_policy_single_accept_anything (env : RunEnv) (p : Policy)
    (h : Event.commit p ∈ (RunE env).1) :
    p = pol ∧
    pol.Default = [PolicyRequirement.insecureAcceptAnything] ∧
    pol.Transports = [] ∧
    (∀ q, Event.policyContextNew q ∈ (RunE env).1 → q = pol) :=
  ⟨(RunE_facts env).2.2.2.2.1 p h, rfl, rfl,
   fun q hq => (RunE_facts env).2.2.2.2.2 q hq⟩

/-- Witness for C9 at a fully successful run. -/
theorem commit_policy_single_accept_anything_witness :
    pol = pol ∧
    pol.Default = [PolicyRequirement.insecureAcceptAnything] ∧
    pol.Transports = [] ∧
    (∀ q, Event.policyContextNew q ∈ (RunE runAllOk).1 → q = pol) :=
  commit_policy_single_accept_anything runAllOk pol (by decide)

/-- C10: with an empty token the credential error is returned even when the
coordinate argument is also malformed (the usage/grammar error from
`indexFor` is never reported); and any erring `pullImage` returns a nil
reference and a nil cleanup function, leaving the caller no release
obligation. -/
theorem empty_token_precedes_parse_and_nil_outputs (env : RunEnv)
    (penv : PullEnv) (i : Bool)
    (h1 : env.argsLen = 1) (h2 : env.flagOk = true)
    (h3 : env.configOk = true) (h4 : env.token = "")
    (_h5 : env.indexOk = false)
    (he : ((pullImage penv i).2.err).isSome = true) :
    (RunE env).2 = some RunErr.emptyToken ∧
    (RunE env).2 ≠ some RunErr.indexFor ∧
    (pullImage penv i).2.ref = none ∧
    (pullImage penv i).2.cleanupReturned = false := by
  have hn := (pullImage_facts penv i).1 he
  refine ⟨?_, ?_, hn.1, hn.2⟩ <;> simp [RunE, h1, h2, h3, h4]

/-- Witness for C10 at an empty-token run with a malformed coordinate and a
pull whose dial fails. -/
theorem empty_token_precedes_parse_and_nil_outputs_witness :
    (RunE ⟨1, true, none, true, "", false, pullAllOk, true, true,
      true⟩).2 = some RunErr.emptyToken ∧
    (RunE ⟨1, true, none, true, "", false, pullAllOk, true, true,
      true⟩).2 ≠ some RunErr.indexFor ∧
    (pullImage ⟨false, true, true, true, "/tmp/d.tar", true, 0, true⟩
      false).2.ref = none ∧
    (pullImage ⟨false, true, true, true, "/tmp/d.tar", true, 0, true⟩
      false).2.cleanupReturned = false :=
  empty_token_precedes_parse_and_nil_outputs
    ⟨1, true, none, true, "", false, pullAllOk, true, true, true⟩
    ⟨false, true, true, true, "/tmp/d.tar", true, 0, true⟩ false
    rfl rfl rfl rfl rfl (by decide)

end KubectlImage
